import Mathlib

/-!
Shallow embedding of the token-recognition engine of `metar-taf-parser`
(`src/command/common.ts` and `src/commons/errors.ts`).

Each recognizer class of the source becomes a Lean namespace with a
`canParse` function (the class's regex test) and an `execute` function.
JavaScript regexes over ASCII tokens are embedded as deterministic
matchers over `List Char`; where a regex could backtrack, the matcher
enumerates the alternatives in the same order the regex engine would,
so captures agree with the source.  Mutation of the shared accumulator
(`IAbstractWeatherContainer`) is embedded as explicit state passing:
`execute` returns the result (a thrown error becomes `Except.error`)
together with the container as it stands at that point of the body.
-/

/-- JS `\d` character class: ASCII digits `0`-`9`. -/
def isDigitCh (c : Char) : Bool := 48 ≤ c.toNat && c.toNat ≤ 57

/-- JS `[A-Z]` character class. -/
def isUpperCh (c : Char) : Bool := 65 ≤ c.toNat && c.toNat ≤ 90

/-- JS `[a-z]` character class. -/
def isLowerCh (c : Char) : Bool := 97 ≤ c.toNat && c.toNat ≤ 122

/-- JS `\w` character class: letters, digits and underscore (codepoint 95). -/
def isWordCh (c : Char) : Bool := isDigitCh c || isUpperCh c || isLowerCh c || c.toNat = 95

/-- JS `\s` on the characters that can occur in report tokens: space (32),
tab (9), line feed (10), carriage return (13), vertical tab (11), form
feed (12). -/
def isSpaceCh (c : Char) : Bool :=
  c.toNat = 32 || c.toNat = 9 || c.toNat = 10 || c.toNat = 13 || c.toNat = 11 || c.toNat = 12

/-- Numeric value of a digit character. -/
def charVal (c : Char) : Nat := c.toNat - 48

/-- JS unary `+` on a string of decimal digits. -/
def toNum (l : List Char) : Nat := l.foldl (fun a c => 10 * a + charVal c) 0

/-- Take exactly `n` characters of class `p` from the front, returning them
and the remainder; fails like a `{n}`-quantified regex class. -/
def takeClass (p : Char → Bool) (n : Nat) (l : List Char) : Option (List Char × List Char) :=
  let pre := l.take n
  if pre.length = n && pre.all p then some (pre, l.drop n) else none

/-! ## Data model (`model/model.ts`, reconstructed from its use in `common.ts`) -/

/-- Visibility distance: `number | string` in the source. -/
inductive VisValue where
  | num (n : Nat)
  | text (s : String)
deriving DecidableEq, Repr

/-- `IWind`. -/
structure Wind where
  speed : Nat
  direction : String
  degrees : Option Nat
  gust : Option Nat
  unit : String
  minVariation : Option Nat := none
  maxVariation : Option Nat := none
deriving DecidableEq, Repr

/-- `IWindShear`: a wind plus a height. -/
structure WindShear extends Wind where
  height : Nat
deriving DecidableEq, Repr

/-- Modelled from the spec: the coverage-code enumeration `CloudQuantity`
(`model/enum.ts` is not under `src/`); "three-letter enumerated
cloud-amount classification (e.g., few, scattered, broken, overcast)". -/
inductive CloudQuantity where
  | SKC | FEW | SCT | BKN | OVC | NSC
deriving DecidableEq, Repr

/-- Modelled from the spec: the significant-cloud-type enumeration
`CloudType` (`model/enum.ts` is not under `src/`); "optional suffix
identifying hazardous cloud forms (e.g., cumulonimbus, towering
cumulus)". -/
inductive CloudType where
  | CB | TCU
deriving DecidableEq, Repr

/-- TS string-enum lookup `CloudQuantity[s]`: `none` for an unknown key. -/
def CloudQuantity.fromString : String → Option CloudQuantity
  | "SKC" => some .SKC
  | "FEW" => some .FEW
  | "SCT" => some .SCT
  | "BKN" => some .BKN
  | "OVC" => some .OVC
  | "NSC" => some .NSC
  | _ => none

/-- TS string-enum lookup `CloudType[s]`: `none` for an unknown key. -/
def CloudType.fromString : String → Option CloudType
  | "CB" => some .CB
  | "TCU" => some .TCU
  | _ => none

/-- `ICloud`. -/
structure Cloud where
  quantity : CloudQuantity
  height : Option Nat
  type : Option CloudType
deriving DecidableEq, Repr

/-- `IVisibility`: main distance plus the optional minimal-visibility pair. -/
structure Visibility where
  distance : VisValue
  minDistance : Option Nat := none
  minDirection : Option String := none
deriving DecidableEq, Repr

/-- `IAbstractWeatherContainer`: the mutable accumulator. -/
structure Container where
  wind : Option Wind := none
  windShear : Option WindShear := none
  visibility : Option Visibility := none
  clouds : List Cloud := []
  verticalVisibility : Option Nat := none
deriving DecidableEq, Repr

/-- The empty accumulator a report decode starts from. -/
def emptyContainer : Container := {}

/-- Error taxonomy of `src/commons/errors.ts`, by class. -/
inductive ParseError where
  | invalidWeatherStatement
  | unsupportedWeatherStatement (reason : String)
  | commandExecution (msg : String)
  | unexpectedParse (msg : String)
deriving DecidableEq, Repr

/-- External value converters (`commons/converter`, not part of this core):
degrees-to-cardinal mapping and metric-visibility normalization.  The spec
treats them as black-box pure functions, so definitions and theorems are
parameterized over them. -/
structure Converters where
  degreesToCardinal : String → String
  convertVisibility : String → VisValue

/-! ## Shared wind extraction (`makeWind`) -/

/-- `makeWind(direction, speed, gust, unit)`: `gust`/`unit` are `none` when
their capture group did not participate. -/
def makeWind (conv : Converters) (direction speed : String)
    (gust unit : Option String) : Wind :=
  { speed := toNum speed.data
    direction := conv.degreesToCardinal direction
    degrees := if direction ≠ "VRB" then some (toNum direction.data) else none
    gust := gust.map (fun g => toNum g.data)
    unit := unit.getD "KT" }

/-! ## Regex matchers -/

/-- The wind-unit alternation `(KT|MPS|KM\/H)` at the front of `l`,
alternatives tried in regex order. -/
def unitAt (l : List Char) : Option (String × List Char) :=
  if l.take 2 = ['K', 'T'] then some ("KT", l.drop 2)
  else if l.take 3 = ['M', 'P', 'S'] then some ("MPS", l.drop 3)
  else if l.take 4 = ['K', 'M', '/', 'H'] then some ("KM/H", l.drop 4)
  else none

/-- The alternation `(VRB|\d{3})` at the front of a wind token, `VRB`
tried first as in the regex. -/
def windDirStep (l : List Char) : Option (List Char × List Char) :=
  if l.take 3 = ['V', 'R', 'B'] then some (['V', 'R', 'B'], l.drop 3)
  else takeClass isDigitCh 3 l

/-- The groups `G?(\d{2})?` after the speed: greedy, and final because
everything after them is optional in `WindCommand`'s regex. -/
def windGustStep (r2 : List Char) : Option String × List Char :=
  let r3 := if r2.head? = some 'G' then r2.drop 1 else r2
  match takeClass isDigitCh 2 r3 with
  | some (g, r) => (some (String.mk g), r)
  | none => (none, r3)

/-- The optional unit group `(KT|MPS|KM\/H)?`. -/
def windUnitStep (l : List Char) : Option String :=
  match unitAt l with
  | some (u, _) => some u
  | none => none

/-- `WindCommand`'s regex `^(VRB|\d{3})(\d{2})G?(\d{2})?(KT|MPS|KM\/H)?`
(end not anchored): capture groups (direction, speed, gust?, unit?).
After direction and speed succeed, every remaining group is optional, so
the greedy first pass is the match the regex engine commits to. -/
def windMatch (l : List Char) : Option (String × String × Option String × Option String) :=
  match windDirStep l with
  | none => none
  | some (dir, r1) =>
    match takeClass isDigitCh 2 r1 with
    | none => none
    | some (spd, r2) =>
      some (String.mk dir, String.mk spd, (windGustStep r2).1,
        windUnitStep (windGustStep r2).2)

/-- `WindVariationCommand`'s regex `^(\d{3})V(\d{3})` (end not anchored):
captures the two 3-digit groups. -/
def windVariationMatch (l : List Char) : Option (Nat × Nat) :=
  match takeClass isDigitCh 3 l with
  | none => none
  | some (a, r) =>
    if r.head? = some 'V' then
      match takeClass isDigitCh 3 (r.drop 1) with
      | some (b, _) => some (toNum a, toNum b)
      | none => none
    else none

/-- The tail `G?(\d{2})?(KT|MPS|KM\/H)` of `WindShearCommand`'s regex: the
unit is mandatory, so the regex backtracks over `G?` and the gust group.
A failing `G?`/gust choice can only be retried with the group empty, and
no unit alternative starts with `G` or a digit, so the search reduces to:
greedy gust-then-unit first, then unit directly. -/
def shearTail (l : List Char) : Option (Option String × String) :=
  let l1 := if l.head? = some 'G' then l.drop 1 else l
  let withGust : Option (Option String × String) :=
    match takeClass isDigitCh 2 l1 with
    | some (g, r) =>
      match unitAt r with
      | some (u, _) => some (some (String.mk g), u)
      | none => none
    | none => none
  match withGust with
  | some res => some res
  | none =>
    match unitAt l1 with
    | some (u, _) => some (none, u)
    | none => none

/-- `WindShearCommand`'s regex `^WS(\d{3})\/(\w{3})(\d{2})G?(\d{2})?(KT|MPS|KM\/H)`
(end not anchored): captures (height, direction, speed, gust?, unit). -/
def windShearMatch (l : List Char) :
    Option (String × String × String × Option String × String) :=
  match l with
  | 'W' :: 'S' :: h1 :: h2 :: h3 :: '/' :: rest =>
    if [h1, h2, h3].all isDigitCh then
      match takeClass isWordCh 3 rest with
      | none => none
      | some (d, r2) =>
        match takeClass isDigitCh 2 r2 with
        | none => none
        | some (sp, r3) =>
          match shearTail r3 with
          | some (g, u) => some (String.mk [h1, h2, h3], String.mk d, String.mk sp, g, u)
          | none => none
    else none
  | _ => none

/-- `MainVisibilityCommand`'s regex `^(\d{4})(|NDV)$`: captures the 4-digit
group. -/
def mainVisMatch (l : List Char) : Option String :=
  match takeClass isDigitCh 4 l with
  | none => none
  | some (d, r) => if r = [] || r = ['N', 'D', 'V'] then some (String.mk d) else none

/-- `MinimalVisibilityCommand`'s regex `^(\d{4}[a-z])$`: the source reads
`+m[1].slice(0, 4)` and `m[1][4]`. -/
def minVisMatch (l : List Char) : Option (Nat × Char) :=
  match l with
  | [a, b, c, d, e] =>
    if [a, b, c, d].all isDigitCh && isLowerCh e then some (toNum [a, b, c, d], e)
    else none
  | _ => none

/-- `VerticalVisibilityCommand`'s regex `^VV(\d{3})$`. -/
def vertVisMatch (l : List Char) : Option Nat :=
  match l with
  | 'V' :: 'V' :: rest =>
    if rest.length = 3 && rest.all isDigitCh then some (toNum rest) else none
  | _ => none

/-- The end `((\d\/\d)?SM)$` of `MainVisibilityNauticalMilesCommand`'s
regex. -/
def smEnd (l : List Char) : Bool :=
  match l with
  | [a, '/', b, 'S', 'M'] => isDigitCh a && isDigitCh b
  | ['S', 'M'] => true
  | _ => false

/-- The tail `(\s)?((\d\/\d)?SM)$`: if the optional space matches but the
rest fails, retrying without it puts a space where `SM`/a digit is
required, so the greedy choice is final. -/
def nmTail (l : List Char) : Bool :=
  match l with
  | c :: rest => if isSpaceCh c then smEnd rest else smEnd (c :: rest)
  | [] => false

/-- `MainVisibilityNauticalMilesCommand`'s regex
`^(\d)*(\s)?((\d\/\d)?SM)$` as a boolean test: `(\d)*` peels digits. -/
def nmMatch (l : List Char) : Bool :=
  nmTail l ||
    (match l with
     | c :: rest => isDigitCh c && nmMatch rest
     | [] => false)

/-- `CloudCommand`'s regex `^([A-Z]{3})(\d{3})?([A-Z]{2,3})?$`: captures
(quantity letters, height digits?, type letters?).  Digits and uppercase
letters are disjoint, so matching is deterministic: the optional height
group participates exactly when three digits follow the quantity. -/
def cloudMatch (l : List Char) : Option (String × Option String × Option String) :=
  match takeClass isUpperCh 3 l with
  | none => none
  | some (q, r1) =>
    let heightStep : Option (List Char) × List Char :=
      match takeClass isDigitCh 3 r1 with
      | some (d, r) => (some d, r)
      | none => (none, r1)
    let r2 := heightStep.2
    if r2 = [] then some (String.mk q, heightStep.1.map String.mk, none)
    else
      match takeClass isUpperCh 3 r2 with
      | some (t, r) =>
        if r = [] then some (String.mk q, heightStep.1.map String.mk, some (String.mk t))
        else
          match takeClass isUpperCh 2 r2 with
          | some (t2, r') =>
            if r' = [] then some (String.mk q, heightStep.1.map String.mk, some (String.mk t2))
            else none
          | none => none
      | none =>
        match takeClass isUpperCh 2 r2 with
        | some (t2, r') =>
          if r' = [] then some (String.mk q, heightStep.1.map String.mk, some (String.mk t2))
          else none
        | none => none

/-! ## Recognizer classes -/

namespace CloudCommand

/-- `CloudCommand.canParse`. -/
def canParse (s : String) : Bool := (cloudMatch s.data).isSome

/-- `CloudCommand.parse`: quantity lookup may fail (unknown coverage code);
`100 * +m[2] || undefined` makes a zero or absent height `none`. -/
def parse (cloudString : String) : Option Cloud :=
  match cloudMatch cloudString.data with
  | none => none
  | some (m1, m2, m3) =>
    let height : Option Nat :=
      m2.bind (fun d => if 100 * toNum d.data = 0 then none else some (100 * toNum d.data))
    let type : Option CloudType := m3.bind CloudType.fromString
    match CloudQuantity.fromString m1 with
    | none => none
    | some quantity => some { quantity := quantity, height := height, type := type }

/-- `CloudCommand.execute`: pushes a cloud and returns `true`, or returns
`false` when `parse` gives nothing.  Never throws. -/
def execute (container : Container) (cloudString : String) :
    Except ParseError Bool × Container :=
  match parse cloudString with
  | some cloud => (.ok true, { container with clouds := container.clouds ++ [cloud] })
  | none => (.ok false, container)

end CloudCommand

namespace MainVisibilityCommand

/-- `MainVisibilityCommand.canParse`. -/
def canParse (visibilityString : String) : Bool := (mainVisMatch visibilityString.data).isSome

/-- `MainVisibilityCommand.execute`: converts the 4-digit group and stores
it as the visibility distance, creating the visibility record if needed. -/
def execute (conv : Converters) (container : Container) (visibilityString : String) :
    Except ParseError Bool × Container :=
  match mainVisMatch visibilityString.data with
  | none => (.ok false, container)
  | some m1 =>
    let distance := conv.convertVisibility m1
    match container.visibility with
    | none => (.ok true, { container with visibility := some { distance := distance } })
    | some v => (.ok true, { container with visibility := some { v with distance := distance } })

end MainVisibilityCommand

namespace WindCommand

/-- `WindCommand.canParse`. -/
def canParse (windString : String) : Bool := (windMatch windString.data).isSome

/-- `WindCommand.parseWind`: throws `UnexpectedParseError` when the regex
does not match, otherwise builds the wind from the captures. -/
def parseWind (conv : Converters) (windString : String) : Except ParseError Wind :=
  match windMatch windString.data with
  | none => .error (.unexpectedParse "Wind should be defined")
  | some (m1, m2, m3, m4) => .ok (makeWind conv m1 m2 m3 m4)

/-- `WindCommand.execute`: stores the parsed wind on the container. -/
def execute (conv : Converters) (container : Container) (windString : String) :
    Except ParseError Bool × Container :=
  match parseWind conv windString with
  | .error e => (.error e, container)
  | .ok wind => (.ok true, { container with wind := some wind })

end WindCommand

namespace WindVariationCommand

/-- `WindVariationCommand.canParse`. -/
def canParse (windString : String) : Bool := (windVariationMatch windString.data).isSome

/-- `WindVariationCommand.execute`: throws `InvalidWeatherStatementError`
when no base wind exists; otherwise `parseWindVariation` either throws
`UnexpectedParseError` (no regex match) or writes both variation fields
onto the existing wind. -/
def execute (container : Container) (windString : String) :
    Except ParseError Bool × Container :=
  match container.wind with
  | none => (.error .invalidWeatherStatement, container)
  | some w =>
    match windVariationMatch windString.data with
    | none => (.error (.unexpectedParse "Wind should be defined"), container)
    | some (mn, mx) =>
      (.ok true,
        { container with wind := some { w with minVariation := some mn, maxVariation := some mx } })

end WindVariationCommand

namespace WindShearCommand

/-- `WindShearCommand.canParse`. -/
def canParse (windString : String) : Bool := (windShearMatch windString.data).isSome

/-- `WindShearCommand.parseWindShear`: throws `UnexpectedParseError` when
the regex does not match, otherwise the shared wind extraction plus the
height scaled by 100. -/
def parseWindShear (conv : Converters) (windString : String) : Except ParseError WindShear :=
  match windShearMatch windString.data with
  | none => .error (.unexpectedParse "Wind shear should be defined")
  | some (m1, m2, m3, m4, m5) =>
    .ok { makeWind conv m2 m3 m4 (some m5) with height := 100 * toNum m1.data }

/-- `WindShearCommand.execute`. -/
def execute (conv : Converters) (container : Container) (windString : String) :
    Except ParseError Bool × Container :=
  match parseWindShear conv windString with
  | .error e => (.error e, container)
  | .ok ws => (.ok true, { container with windShear := some ws })

end WindShearCommand

namespace VerticalVisibilityCommand

/-- `VerticalVisibilityCommand.canParse`. -/
def canParse (windString : String) : Bool := (vertVisMatch windString.data).isSome

/-- `VerticalVisibilityCommand.execute`: throws `UnexpectedParseError` when
the regex does not match, otherwise stores the height scaled by 100. -/
def execute (container : Container) (visibilityString : String) :
    Except ParseError Bool × Container :=
  match vertVisMatch visibilityString.data with
  | none => (.error (.unexpectedParse "Vertical visibility should be defined"), container)
  | some n => (.ok true, { container with verticalVisibility := some (100 * n) })

end VerticalVisibilityCommand

namespace MinimalVisibilityCommand

/-- `MinimalVisibilityCommand.canParse`. -/
def canParse (windString : String) : Bool := (minVisMatch windString.data).isSome

/-- `MinimalVisibilityCommand.execute`, in source order: first the regex
match (else `UnexpectedParseError`), then the visibility precondition
(else `UnexpectedParseError "container.visibility not instantiated"`),
then the two writes. -/
def execute (container : Container) (visibilityString : String) :
    Except ParseError Bool × Container :=
  match minVisMatch visibilityString.data with
  | none => (.error (.unexpectedParse "Vertical visibility should be defined"), container)
  | some (d, c) =>
    match container.visibility with
    | none => (.error (.unexpectedParse "container.visibility not instantiated"), container)
    | some v =>
      (.ok true,
        { container with
            visibility := some { v with minDistance := some d, minDirection := some (String.mk [c]) } })

end MinimalVisibilityCommand

namespace MainVisibilityNauticalMilesCommand

/-- `MainVisibilityNauticalMilesCommand.canParse`. -/
def canParse (windString : String) : Bool := nmMatch windString.data

/-- `MainVisibilityNauticalMilesCommand.execute`: stores the raw token text
as the distance, creating the visibility record if needed.  Never throws
and never re-checks the regex. -/
def execute (container : Container) (visibilityString : String) :
    Except ParseError Bool × Container :=
  match container.visibility with
  | none =>
    (.ok true, { container with visibility := some { distance := .text visibilityString } })
  | some v =>
    (.ok true, { container with visibility := some { v with distance := .text visibilityString } })

end MainVisibilityNauticalMilesCommand

/-! ## Dispatcher (`CommandSupplier`) -/

/-- The eight recognizers, as a closed enumeration. -/
inductive Command where
  | windShear | wind | windVariation | mainVisibility
  | mainVisibilityNauticalMiles | minimalVisibility | verticalVisibility | cloud
deriving DecidableEq, Repr

/-- Dynamic dispatch of `canParse` over the recognizer list. -/
def Command.canParse : Command → String → Bool
  | .windShear, s => WindShearCommand.canParse s
  | .wind, s => WindCommand.canParse s
  | .windVariation, s => WindVariationCommand.canParse s
  | .mainVisibility, s => MainVisibilityCommand.canParse s
  | .mainVisibilityNauticalMiles, s => MainVisibilityNauticalMilesCommand.canParse s
  | .minimalVisibility, s => MinimalVisibilityCommand.canParse s
  | .verticalVisibility, s => VerticalVisibilityCommand.canParse s
  | .cloud, s => CloudCommand.canParse s

/-- Dynamic dispatch of `execute` over the recognizer list. -/
def Command.execute (conv : Converters) :
    Command → Container → String → Except ParseError Bool × Container
  | .windShear, cont, s => WindShearCommand.execute conv cont s
  | .wind, cont, s => WindCommand.execute conv cont s
  | .windVariation, cont, s => WindVariationCommand.execute cont s
  | .mainVisibility, cont, s => MainVisibilityCommand.execute conv cont s
  | .mainVisibilityNauticalMiles, cont, s => MainVisibilityNauticalMilesCommand.execute cont s
  | .minimalVisibility, cont, s => MinimalVisibilityCommand.execute cont s
  | .verticalVisibility, cont, s => VerticalVisibilityCommand.execute cont s
  | .cloud, cont, s => CloudCommand.execute cont s

/-- In the source, `canParse(str)` does not receive the container at all and
each body is a single `this.#regex.test(str)` on a regex without the `g` or
`y` flag, which neither reads nor writes `lastIndex`; the state-passing
embedding of a `canParse` call therefore returns the container untouched. -/
def Command.canParseM (c : Command) (container : Container) (s : String) :
    Bool × Container :=
  (c.canParse s, container)

namespace CommandSupplier

/-- `CommandSupplier`'s `#commands` array, in source order. -/
def commands : List Command :=
  [.windShear, .wind, .windVariation, .mainVisibility,
   .mainVisibilityNauticalMiles, .minimalVisibility, .verticalVisibility, .cloud]

/-- `CommandSupplier.get`: the first command whose `canParse` accepts the
input; `undefined` (here `none`) when none does. -/
def get (input : String) : Option Command :=
  commands.find? (fun c => c.canParse input)

/-- State-passing embedding of a `get` call: the body only calls the
commands' container-free `canParse`, so the container passes through. -/
def getM (container : Container) (input : String) : Option Command × Container :=
  (get input, container)

end CommandSupplier

/-! ## Sample converters for concrete instantiations -/

/-- Concrete converters used to instantiate the parameterized theorems at
concrete inputs. -/
def idConverters : Converters :=
  { degreesToCardinal := fun s => s, convertVisibility := fun s => .text s }

/-- A concrete wind, for instantiating theorems that need a prior base
wind on the accumulator. -/
def sampleWind : Wind :=
  { speed := 15, direction := "240", degrees := some 240, gust := none, unit := "KT" }

/-- An accumulator that already carries `sampleWind`. -/
def sampleWindContainer : Container := { wind := some sampleWind }

/-- Characters contributed to a wind token by an optional gust group. -/
def gustPart : Option (Char × Char) → List Char
  | none => []
  | some (g1, g2) => ['G', g1, g2]

/-- Characters contributed to a wind token by an optional unit suffix. -/
def unitChars : Option String → List Char
  | none => []
  | some u => u.data

/-- A wind-speed unit in the grammar's alternation. -/
def isWindUnit (u : String) : Prop := u = "KT" ∨ u = "MPS" ∨ u = "KM/H"

/-! ## Helper lemmas -/

/-- A character in class `p` differs from any character outside it. -/
theorem ne_of_class {p : Char → Bool} {a c : Char} (h : p a = true) (hc : p c = false) :
    a ≠ c := fun he => by subst he; rw [h] at hc; exact Bool.noConfusion hc

/-- `takeClass` on a block of the right length and class followed by a
remainder consumes exactly the block. -/
theorem takeClass_append (p : Char → Bool) (xs rest : List Char) (n : Nat)
    (hlen : xs.length = n) (hall : xs.all p = true) :
    takeClass p n (xs ++ rest) = some (xs, rest) := by
  subst hlen
  simp [takeClass, List.take_left, List.drop_left, hall]

/-- `takeClass` fails when the prefix is too short or out of class. -/
theorem takeClass_eq_none {p : Char → Bool} {n : Nat} {l : List Char}
    (h : ¬((l.take n).length = n ∧ (l.take n).all p = true)) :
    takeClass p n l = none := by
  simp only [takeClass]
  rw [if_neg]
  simp only [Bool.and_eq_true, decide_eq_true_eq]
  exact h

/-- Successful `takeClass` returns the take/drop split and certifies length
and class. -/
theorem takeClass_eq_some {p : Char → Bool} {n : Nat} {l : List Char} {pr rs : List Char}
    (h : takeClass p n l = some (pr, rs)) :
    pr = l.take n ∧ rs = l.drop n ∧ (l.take n).length = n ∧ (l.take n).all p = true := by
  simp only [takeClass] at h
  split at h
  · rename_i hc
    simp only [Bool.and_eq_true, decide_eq_true_eq] at hc
    cases h
    exact ⟨rfl, rfl, hc.1, hc.2⟩
  · exact absurd h (by simp)




/-- `windDirStep` takes a leading `VRB`. -/
theorem windDirStep_vrb (rest : List Char) :
    windDirStep (['V', 'R', 'B'] ++ rest) = some (['V', 'R', 'B'], rest) := by
  have ht : List.take 3 (['V', 'R', 'B'] ++ rest) = ['V', 'R', 'B'] := List.take_left' rfl
  have hd : List.drop 3 (['V', 'R', 'B'] ++ rest) = rest := List.drop_left' rfl
  unfold windDirStep
  split
  · rw [hd]
  · rename_i hcond
    exact absurd ht hcond

/-- `windDirStep` takes a leading 3-digit group. -/
theorem windDirStep_digits {dir : List Char} (rest : List Char)
    (hlen : dir.length = 3) (hall : dir.all isDigitCh = true) :
    windDirStep (dir ++ rest) = some (dir, rest) := by
  have hne : dir ≠ ['V', 'R', 'B'] := by
    intro he
    rw [he] at hall
    exact absurd hall (by decide)
  unfold windDirStep
  split
  · rename_i hcond
    rw [List.take_left' hlen] at hcond
    exact absurd hcond hne
  · exact takeClass_append _ dir rest 3 hlen hall

/-- `windGustStep` consumes a `G` plus two digits. -/
theorem windGustStep_gust {g1 g2 : Char} (rest : List Char)
    (hg1 : isDigitCh g1 = true) (hg2 : isDigitCh g2 = true) :
    windGustStep ('G' :: g1 :: g2 :: rest) = (some (String.mk [g1, g2]), rest) := by
  have h2 : takeClass isDigitCh 2 (g1 :: g2 :: rest) = some ([g1, g2], rest) :=
    takeClass_append _ [g1, g2] rest 2 rfl (by simp [hg1, hg2])
  unfold windGustStep
  simp [h2]

/-- `windGustStep` leaves a unit suffix (or nothing) untouched. -/
theorem windGustStep_unit (u : Option String) (hu : ∀ us, u = some us → isWindUnit us) :
    windGustStep (unitChars u) = (none, unitChars u) := by
  rcases hucase : u with _ | us
  · rfl
  · rcases hu us hucase with h | h | h <;> subst h <;> rfl

/-- `windUnitStep` recovers the unit suffix when the token ends there. -/
theorem windUnitStep_unit (u : Option String) (hu : ∀ us, u = some us → isWindUnit us) :
    windUnitStep (unitChars u) = u := by
  rcases hucase : u with _ | us
  · rfl
  · rcases hu us hucase with h | h | h <;> subst h <;> rfl

/-- `windMatch` on a well-formed base-wind token recovers each component. -/
theorem windMatch_shape (dir : List Char) (s1 s2 : Char) (g : Option (Char × Char))
    (u : Option String)
    (hdir : dir = ['V', 'R', 'B'] ∨ (dir.length = 3 ∧ dir.all isDigitCh = true))
    (hs1 : isDigitCh s1 = true) (hs2 : isDigitCh s2 = true)
    (hg : ∀ g1 g2, g = some (g1, g2) → isDigitCh g1 = true ∧ isDigitCh g2 = true)
    (hu : ∀ us, u = some us → isWindUnit us) :
    windMatch (dir ++ s1 :: s2 :: (gustPart g ++ unitChars u)) =
      some (String.mk dir, String.mk [s1, s2],
        g.map (fun q => String.mk [q.1, q.2]), u) := by
  have hdirstep : windDirStep (dir ++ s1 :: s2 :: (gustPart g ++ unitChars u)) =
      some (dir, s1 :: s2 :: (gustPart g ++ unitChars u)) := by
    rcases hdir with hv | ⟨hlen, hall⟩
    · subst hv; exact windDirStep_vrb _
    · exact windDirStep_digits _ hlen hall
  have hspeed : takeClass isDigitCh 2 (s1 :: s2 :: (gustPart g ++ unitChars u)) =
      some ([s1, s2], gustPart g ++ unitChars u) :=
    takeClass_append _ [s1, s2] _ 2 rfl (by simp [hs1, hs2])
  have hgstep : windGustStep (gustPart g ++ unitChars u) =
      (g.map (fun q => String.mk [q.1, q.2]), unitChars u) := by
    rcases hgcase : g with _ | ⟨g1, g2⟩
    · simpa [gustPart] using windGustStep_unit u hu
    · obtain ⟨hg1, hg2⟩ := hg g1 g2 hgcase
      simpa [gustPart] using windGustStep_gust (unitChars u) hg1 hg2
  unfold windMatch
  rw [hdirstep]
  simp only [hspeed, hgstep]
  rw [windUnitStep_unit u hu]

/-- Digits are word characters, blockwise. -/
theorem all_word_of_all_digit {l : List Char} (h : l.all isDigitCh = true) :
    l.all isWordCh = true := by
  simp only [List.all_eq_true] at h ⊢
  intro x hx
  simp [isWordCh, h x hx]

/-- `shearTail` on a gust group (optional) followed by a unit suffix. -/
theorem shearTail_shape (g : Option (Char × Char)) (u : String)
    (hg : ∀ g1 g2, g = some (g1, g2) → isDigitCh g1 = true ∧ isDigitCh g2 = true)
    (hu : isWindUnit u) :
    shearTail (gustPart g ++ u.data) =
      some (g.map (fun q => String.mk [q.1, q.2]), u) := by
  rcases hgcase : g with _ | ⟨g1, g2⟩
  · rcases hu with h | h | h <;> subst h <;> rfl
  · obtain ⟨hg1, hg2⟩ := hg g1 g2 hgcase
    have h2 : takeClass isDigitCh 2 (g1 :: g2 :: u.data) = some ([g1, g2], u.data) :=
      takeClass_append _ [g1, g2] _ 2 rfl (by simp [hg1, hg2])
    have huat : unitAt u.data = some (u, []) := by
      rcases hu with h | h | h <;> subst h <;> rfl
    unfold shearTail
    simp [gustPart, h2, huat]

/-- `shearTail` fails when no unit suffix follows the (optional) gust. -/
theorem shearTail_nounit (g : Option (Char × Char))
    (hg : ∀ g1 g2, g = some (g1, g2) → isDigitCh g1 = true ∧ isDigitCh g2 = true) :
    shearTail (gustPart g) = none := by
  rcases hgcase : g with _ | ⟨g1, g2⟩
  · rfl
  · obtain ⟨hg1, hg2⟩ := hg g1 g2 hgcase
    have h2 : takeClass isDigitCh 2 (g1 :: g2 :: []) = some ([g1, g2], []) :=
      takeClass_append _ [g1, g2] _ 2 rfl (by simp [hg1, hg2])
    have hne : unitAt [g1, g2] = none := by
      unfold unitAt
      rw [if_neg, if_neg, if_neg]
      · intro he
        simp only [List.take] at he
        exact absurd he (by simp)
      · intro he
        simp only [List.take] at he
        exact absurd he (by simp)
      · intro he
        simp only [List.take] at he
        have hg1K : g1 = 'K' := by
          have := congrArg (fun l => l.head?) he
          simpa using this
        rw [hg1K] at hg1
        exact absurd hg1 (by decide)
    have h0 : unitAt [] = none := rfl
    unfold shearTail
    simp [gustPart, h2, h0, hne]

/-- `windShearMatch` on a well-formed wind-shear token (unit present)
recovers each component. -/
theorem windShearMatch_shape (h1 h2 h3 : Char) (dir : List Char) (s1 s2 : Char)
    (g : Option (Char × Char)) (u : String)
    (hh1 : isDigitCh h1 = true) (hh2 : isDigitCh h2 = true) (hh3 : isDigitCh h3 = true)
    (hdir : dir = ['V', 'R', 'B'] ∨ (dir.length = 3 ∧ dir.all isDigitCh = true))
    (hs1 : isDigitCh s1 = true) (hs2 : isDigitCh s2 = true)
    (hg : ∀ g1 g2, g = some (g1, g2) → isDigitCh g1 = true ∧ isDigitCh g2 = true)
    (hu : isWindUnit u) :
    windShearMatch
        ('W' :: 'S' :: h1 :: h2 :: h3 :: '/' :: (dir ++ s1 :: s2 :: (gustPart g ++ u.data))) =
      some (String.mk [h1, h2, h3], String.mk dir, String.mk [s1, s2],
        g.map (fun q => String.mk [q.1, q.2]), u) := by
  have hword : takeClass isWordCh 3 (dir ++ s1 :: s2 :: (gustPart g ++ u.data)) =
      some (dir, s1 :: s2 :: (gustPart g ++ u.data)) := by
    rcases hdir with hv | ⟨hlen, hall⟩
    · subst hv; exact takeClass_append _ _ _ 3 rfl (by decide)
    · exact takeClass_append _ dir _ 3 hlen (all_word_of_all_digit hall)
  have hspeed : takeClass isDigitCh 2 (s1 :: s2 :: (gustPart g ++ u.data)) =
      some ([s1, s2], gustPart g ++ u.data) :=
    takeClass_append _ [s1, s2] _ 2 rfl (by simp [hs1, hs2])
  unfold windShearMatch
  simp [hh1, hh2, hh3, hword, hspeed, shearTail_shape g u hg hu]

/-- `windShearMatch` rejects a wind-shear token that omits the unit. -/
theorem windShearMatch_nounit (h1 h2 h3 : Char) (dir : List Char) (s1 s2 : Char)
    (g : Option (Char × Char))
    (hh1 : isDigitCh h1 = true) (hh2 : isDigitCh h2 = true) (hh3 : isDigitCh h3 = true)
    (hdir : dir = ['V', 'R', 'B'] ∨ (dir.length = 3 ∧ dir.all isDigitCh = true))
    (hs1 : isDigitCh s1 = true) (hs2 : isDigitCh s2 = true)
    (hg : ∀ g1 g2, g = some (g1, g2) → isDigitCh g1 = true ∧ isDigitCh g2 = true) :
    windShearMatch ('W' :: 'S' :: h1 :: h2 :: h3 :: '/' :: (dir ++ s1 :: s2 :: gustPart g)) =
      none := by
  have hword : takeClass isWordCh 3 (dir ++ s1 :: s2 :: gustPart g) =
      some (dir, s1 :: s2 :: gustPart g) := by
    rcases hdir with hv | ⟨hlen, hall⟩
    · subst hv; exact takeClass_append _ _ _ 3 rfl (by decide)
    · exact takeClass_append _ dir _ 3 hlen (all_word_of_all_digit hall)
  have hspeed : takeClass isDigitCh 2 (s1 :: s2 :: gustPart g) =
      some ([s1, s2], gustPart g) :=
    takeClass_append _ [s1, s2] _ 2 rfl (by simp [hs1, hs2])
  unfold windShearMatch
  simp [hh1, hh2, hh3, hword, hspeed, shearTail_nounit g hg]

/-- An uppercase letter is not a digit. -/
theorem upper_not_digit {a : Char} (h : isUpperCh a = true) : isDigitCh a = false := by
  simp only [isUpperCh, Bool.and_eq_true, decide_eq_true_eq] at h
  simp only [isDigitCh, Bool.and_eq_false_iff, decide_eq_false_iff_not]
  omega

/-- An uppercase letter is not a whitespace character. -/
theorem upper_not_space {a : Char} (h : isUpperCh a = true) : isSpaceCh a = false := by
  simp only [isUpperCh, Bool.and_eq_true, decide_eq_true_eq] at h
  simp only [isSpaceCh, Bool.or_eq_false_iff, decide_eq_false_iff_not]
  omega

/-- A three-character token never matches the wind-shear grammar. -/
theorem windShearMatch_three (a b c : Char) : windShearMatch [a, b, c] = none := by
  unfold windShearMatch
  split
  · rename_i heq
    exact absurd (congrArg List.length heq) (by simp)
  · rfl

/-- A three-character token starting with an uppercase letter never matches
the base-wind grammar. -/
theorem windMatch_three {a : Char} (b c : Char) (ha : isUpperCh a = true) :
    windMatch [a, b, c] = none := by
  unfold windMatch windDirStep
  by_cases hv : List.take 3 [a, b, c] = ['V', 'R', 'B']
  · rw [if_pos hv]
    rfl
  · rw [if_neg hv, takeClass_eq_none]
    intro hcl
    have := hcl.2
    simp [upper_not_digit ha] at this

/-- A three-character token starting with an uppercase letter never matches
the wind-variation grammar. -/
theorem windVariationMatch_three {a : Char} (b c : Char) (ha : isUpperCh a = true) :
    windVariationMatch [a, b, c] = none := by
  unfold windVariationMatch
  rw [takeClass_eq_none]
  intro hcl
  have := hcl.2
  simp [upper_not_digit ha] at this

/-- A three-character token never matches the metric main-visibility
grammar. -/
theorem mainVisMatch_three (a b c : Char) : mainVisMatch [a, b, c] = none := by
  unfold mainVisMatch
  rw [takeClass_eq_none]
  intro hcl
  exact absurd hcl.1 (by simp)

/-- A three-character token starting with an uppercase letter never matches
the statute-miles visibility grammar. -/
theorem nmMatch_three {a : Char} (b c : Char) (ha : isUpperCh a = true) :
    nmMatch [a, b, c] = false := by
  have hsm : smEnd [a, b, c] = false := by
    unfold smEnd
    split
    · rename_i heq
      exact absurd (congrArg List.length heq) (by simp)
    · rename_i heq
      exact absurd (congrArg List.length heq) (by simp)
    · rfl
  unfold nmMatch nmTail
  simp [upper_not_space ha, upper_not_digit ha, hsm]

/-- A three-character token never matches the vertical-visibility grammar. -/
theorem vertVisMatch_three (a b c : Char) : vertVisMatch [a, b, c] = none := by
  unfold vertVisMatch
  split
  · rename_i rest heq
    have hr : rest = [List.get [a, b, c] ⟨2, by simp⟩] := by
      cases heq
      rfl
    rw [hr]
    rfl
  · rfl

/-- The cloud grammar matches any three-uppercase-letter token, with no
height and no type captured. -/
theorem cloudMatch_three {a b c : Char} (ha : isUpperCh a = true) (hb : isUpperCh b = true)
    (hc : isUpperCh c = true) :
    cloudMatch [a, b, c] = some (String.mk [a, b, c], none, none) := by
  have hq : takeClass isUpperCh 3 [a, b, c] = some ([a, b, c], []) := by
    have := takeClass_append isUpperCh [a, b, c] [] 3 rfl (by simp [ha, hb, hc])
    rwa [List.append_nil] at this
  unfold cloudMatch
  rw [hq]
  rfl

/-- `takeClass` succeeds when the prefix has the right length and class. -/
theorem takeClass_eq_some_of (p : Char → Bool) (n : Nat) (l : List Char)
    (hlen : (l.take n).length = n) (hall : (l.take n).all p = true) :
    takeClass p n l = some (l.take n, l.drop n) := by
  simp [takeClass, hlen, hall]

/-! ## Claim theorems -/

/-- C1: for an accumulator with no visibility and a token recognized by the
minimal-visibility recognizer (4 digits + one lowercase letter, e.g.
`"1200s"`), `MinimalVisibilityCommand.execute` raises the
`UnexpectedParseError`-class error `"container.visibility not
instantiated"` — not an `InvalidWeatherStatementError`-class error as the
claim states.  This theorem evaluates the code at the failing input. -/
theorem minimalVisibility_missing_base_raises_unexpected_class :
    MinimalVisibilityCommand.canParse "1200s" = true ∧
    MinimalVisibilityCommand.execute emptyContainer "1200s" =
      (.error (.unexpectedParse "container.visibility not instantiated"), emptyContainer) ∧
    (MinimalVisibilityCommand.execute emptyContainer "1200s").1 ≠
      .error .invalidWeatherStatement := by
  refine ⟨rfl, rfl, ?_⟩
  intro h
  rw [show (MinimalVisibilityCommand.execute emptyContainer "1200s").1 =
      .error (.unexpectedParse "container.visibility not instantiated") from rfl] at h
  exact ParseError.noConfusion (Except.error.inj h)

/-- C2 counterexample: on the three-uppercase-letter token `"XYZ"`, whose
letters are not a coverage code, the dispatcher does NOT return none: it
returns the cloud recognizer, whose shape test matches any three
uppercase letters. -/
theorem dispatcher_xyz_not_none :
    CommandSupplier.get "XYZ" ≠ none ∧ CommandSupplier.get "XYZ" = some Command.cloud := by
  constructor
  · intro h
    rw [show CommandSupplier.get "XYZ" = some Command.cloud from rfl] at h
    exact Option.noConfusion h
  · rfl

/-- C2 (amended): for every three-uppercase-letter token whose letters are
not a known coverage code, the dispatcher selects the cloud recognizer
(not none), and executing that recognizer returns `false` without mutating
the accumulator and without raising an error. -/
theorem unknown_coverage_selects_cloud_and_is_noop (cont : Container) (a b c : Char)
    (ha : isUpperCh a = true) (hb : isUpperCh b = true) (hc : isUpperCh c = true)
    (hq : CloudQuantity.fromString (String.mk [a, b, c]) = none) :
    CommandSupplier.get (String.mk [a, b, c]) = some Command.cloud ∧
    CloudCommand.execute cont (String.mk [a, b, c]) = (.ok false, cont) := by
  have hdata : (String.mk [a, b, c]).data = [a, b, c] := rfl
  have hws : WindShearCommand.canParse (String.mk [a, b, c]) = false := by
    simp [WindShearCommand.canParse, hdata, windShearMatch_three]
  have hw : WindCommand.canParse (String.mk [a, b, c]) = false := by
    simp [WindCommand.canParse, hdata, windMatch_three b c ha]
  have hv : WindVariationCommand.canParse (String.mk [a, b, c]) = false := by
    simp [WindVariationCommand.canParse, hdata, windVariationMatch_three b c ha]
  have hm : MainVisibilityCommand.canParse (String.mk [a, b, c]) = false := by
    simp [MainVisibilityCommand.canParse, hdata, mainVisMatch_three]
  have hnm : MainVisibilityNauticalMilesCommand.canParse (String.mk [a, b, c]) = false := by
    simp [MainVisibilityNauticalMilesCommand.canParse, hdata, nmMatch_three b c ha]
  have hmin : MinimalVisibilityCommand.canParse (String.mk [a, b, c]) = false := by
    simp [MinimalVisibilityCommand.canParse, hdata]
    rfl
  have hvv : VerticalVisibilityCommand.canParse (String.mk [a, b, c]) = false := by
    simp [VerticalVisibilityCommand.canParse, hdata, vertVisMatch_three]
  have hcl : CloudCommand.canParse (String.mk [a, b, c]) = true := by
    simp [CloudCommand.canParse, hdata, cloudMatch_three ha hb hc]
  constructor
  · simp [CommandSupplier.get, CommandSupplier.commands, List.find?, Command.canParse,
      hws, hw, hv, hm, hnm, hmin, hvv, hcl]
  · simp [CloudCommand.execute, CloudCommand.parse, hdata, cloudMatch_three ha hb hc, hq]

/-- C2 witness: the amended statement instantiated at `"XYZ"` and the
empty accumulator. -/
theorem unknown_coverage_selects_cloud_and_is_noop_witness :
    CommandSupplier.get "XYZ" = some Command.cloud ∧
    CloudCommand.execute emptyContainer "XYZ" = (.ok false, emptyContainer) :=
  unknown_coverage_selects_cloud_and_is_noop emptyContainer 'X' 'Y' 'Z'
    (by decide) (by decide) (by decide) rfl

/-- C9: `canParse` is a container-free pure function in the source (a
regex test without the `g`/`y` flag), so in the state-passing embedding a
repeated call returns the same boolean and leaves the accumulator exactly
as it was. -/
theorem canParse_idempotent_no_mutation (c : Command) (cont : Container) (s : String) :
    (Command.canParseM c cont s).1 =
      (Command.canParseM c (Command.canParseM c cont s).2 s).1 ∧
    (Command.canParseM c (Command.canParseM c cont s).2 s).2 = cont :=
  ⟨rfl, rfl⟩

/-- C10: whenever a recognizer's `execute` raises (returns an error), the
accumulator is returned exactly as it was passed in: every throwing path
of the source runs before any field write. -/
theorem execute_error_leaves_container (conv : Converters) (c : Command)
    (cont : Container) (s : String) (e : ParseError)
    (h : (Command.execute conv c cont s).1 = .error e) :
    (Command.execute conv c cont s).2 = cont := by
  cases c
  case windShear =>
    simp only [Command.execute, WindShearCommand.execute] at h ⊢
    rcases hp : WindShearCommand.parseWindShear conv s with e' | w <;> simp [hp] at h ⊢
  case wind =>
    simp only [Command.execute, WindCommand.execute] at h ⊢
    rcases hp : WindCommand.parseWind conv s with e' | w <;> simp [hp] at h ⊢
  case windVariation =>
    simp only [Command.execute, WindVariationCommand.execute] at h ⊢
    rcases hw : cont.wind with _ | w
    · simp [hw]
    · rcases hm : windVariationMatch s.data with _ | ⟨mn, mx⟩ <;> simp [hw, hm] at h ⊢
  case mainVisibility =>
    simp only [Command.execute, MainVisibilityCommand.execute] at h ⊢
    rcases hm : mainVisMatch s.data with _ | d
    · simp [hm] at h ⊢
    · rcases hv : cont.visibility with _ | v <;> simp [hm, hv] at h
  case mainVisibilityNauticalMiles =>
    simp only [Command.execute, MainVisibilityNauticalMilesCommand.execute] at h ⊢
    rcases hv : cont.visibility with _ | v <;> simp [hv] at h
  case minimalVisibility =>
    simp only [Command.execute, MinimalVisibilityCommand.execute] at h ⊢
    rcases hm : minVisMatch s.data with _ | ⟨d, ch⟩
    · simp [hm]
    · rcases hv : cont.visibility with _ | v <;> simp [hm, hv] at h ⊢
  case verticalVisibility =>
    simp only [Command.execute, VerticalVisibilityCommand.execute] at h ⊢
    rcases hm : vertVisMatch s.data with _ | n <;> simp [hm] at h ⊢
  case cloud =>
    simp only [Command.execute, CloudCommand.execute] at h ⊢
    rcases hp : CloudCommand.parse s with _ | cl <;> simp [hp] at h

/-- C10 witness: a wind-variation token on an accumulator with no wind
errors and leaves the empty accumulator unchanged. -/
theorem execute_error_leaves_container_witness :
    (Command.execute idConverters .windVariation emptyContainer "350V050").2 =
      emptyContainer :=
  execute_error_leaves_container idConverters .windVariation emptyContainer "350V050"
    .invalidWeatherStatement rfl

/-- C5: on a wind-variation token (3 digits, `V`, 3 digits), `execute`
raises the invalid-statement error when the accumulator has no wind, and
otherwise sets `minVariation` to the first 3-digit group and
`maxVariation` to the second on the existing wind, leaving its other
fields unchanged. -/
theorem windVariation_execute_spec (cont : Container) (a1 a2 a3 b1 b2 b3 : Char)
    (ha : [a1, a2, a3].all isDigitCh = true) (hb : [b1, b2, b3].all isDigitCh = true) :
    (cont.wind = none →
      WindVariationCommand.execute cont (String.mk (a1 :: a2 :: a3 :: 'V' :: [b1, b2, b3])) =
        (.error .invalidWeatherStatement, cont)) ∧
    (∀ w, cont.wind = some w →
      WindVariationCommand.execute cont (String.mk (a1 :: a2 :: a3 :: 'V' :: [b1, b2, b3])) =
        (.ok true,
          { cont with
              wind := some { w with
                minVariation := some (toNum [a1, a2, a3]),
                maxVariation := some (toNum [b1, b2, b3]) } })) := by
  have h3 : takeClass isDigitCh 3 ([a1, a2, a3] ++ 'V' :: [b1, b2, b3]) =
      some ([a1, a2, a3], 'V' :: [b1, b2, b3]) :=
    takeClass_append _ [a1, a2, a3] _ 3 rfl ha
  have h3b : takeClass isDigitCh 3 [b1, b2, b3] = some ([b1, b2, b3], []) := by
    have := takeClass_append isDigitCh [b1, b2, b3] [] 3 rfl hb
    rwa [List.append_nil] at this
  have hm : windVariationMatch (a1 :: a2 :: a3 :: 'V' :: [b1, b2, b3]) =
      some (toNum [a1, a2, a3], toNum [b1, b2, b3]) := by
    unfold windVariationMatch
    rw [show a1 :: a2 :: a3 :: 'V' :: [b1, b2, b3] = [a1, a2, a3] ++ 'V' :: [b1, b2, b3]
      from rfl, h3]
    simp [h3b]
  constructor
  · intro hw
    unfold WindVariationCommand.execute
    rw [hw]
  · intro w hw
    unfold WindVariationCommand.execute
    rw [hw, show (String.mk (a1 :: a2 :: a3 :: 'V' :: [b1, b2, b3])).data =
      a1 :: a2 :: a3 :: 'V' :: [b1, b2, b3] from rfl, hm]

/-- C5 witness: `"350V050"` errors on the empty accumulator and, after a
base wind, sets minVariation 350 and maxVariation 50 on it. -/
theorem windVariation_execute_spec_witness :
    WindVariationCommand.execute emptyContainer "350V050" =
      (.error .invalidWeatherStatement, emptyContainer) ∧
    WindVariationCommand.execute sampleWindContainer "350V050" =
      (.ok true,
        { sampleWindContainer with
            wind := some { sampleWind with
              minVariation := some 350, maxVariation := some 50 } }) :=
  ⟨(windVariation_execute_spec emptyContainer '3' '5' '0' '0' '5' '0'
      (by decide) (by decide)).1 rfl,
   (windVariation_execute_spec sampleWindContainer '3' '5' '0' '0' '5' '0'
      (by decide) (by decide)).2 sampleWind rfl⟩

/-- C6: the dispatcher returns the first recognizer, in the fixed order
wind shear, base wind, wind variation, metric main visibility, statute
miles main visibility, minimal visibility, vertical visibility, cloud,
whose shape test accepts the token; it returns none exactly when no shape
test accepts; and its state-passing embedding leaves the accumulator
untouched (the source's `get` only calls the container-free `canParse`). -/
theorem commandSupplier_get_first_match (s : String) :
    (CommandSupplier.get s =
      if Command.canParse .windShear s then some .windShear
      else if Command.canParse .wind s then some .wind
      else if Command.canParse .windVariation s then some .windVariation
      else if Command.canParse .mainVisibility s then some .mainVisibility
      else if Command.canParse .mainVisibilityNauticalMiles s then
        some .mainVisibilityNauticalMiles
      else if Command.canParse .minimalVisibility s then some .minimalVisibility
      else if Command.canParse .verticalVisibility s then some .verticalVisibility
      else if Command.canParse .cloud s then some .cloud
      else none) ∧
    (CommandSupplier.get s = none ↔
      ∀ c ∈ CommandSupplier.commands, Command.canParse c s = false) ∧
    (∀ cont : Container, CommandSupplier.getM cont s = (CommandSupplier.get s, cont)) := by
  refine ⟨?_, ?_, fun cont => rfl⟩
  · cases h1 : Command.canParse Command.windShear s <;>
    cases h2 : Command.canParse Command.wind s <;>
    cases h3 : Command.canParse Command.windVariation s <;>
    cases h4 : Command.canParse Command.mainVisibility s <;>
    cases h5 : Command.canParse Command.mainVisibilityNauticalMiles s <;>
    cases h6 : Command.canParse Command.minimalVisibility s <;>
    cases h7 : Command.canParse Command.verticalVisibility s <;>
    cases h8 : Command.canParse Command.cloud s <;>
    simp [CommandSupplier.get, CommandSupplier.commands, List.find?,
      h1, h2, h3, h4, h5, h6, h7, h8]
  · simp only [CommandSupplier.get, List.find?_eq_none, Bool.not_eq_true]

/-- Unfolding helper: the character list underlying a built string. -/
theorem data_mk (l : List Char) : (String.mk l).data = l := rfl

/-- C3 counterexample: the wind-shear token `"WS020/24015"`, which omits
the unit suffix, is NOT recognized, although the claim says the unit is
optional. -/
theorem windShear_no_unit_not_recognized :
    WindShearCommand.canParse "WS020/24015" = false := rfl

/-- C3 (amended): the wind-shear recognizer accepts every token of the
shape `WS` + 3-digit height + slash + (3-digit direction or `VRB`) +
2-digit speed + optional `G`+2-digit gust + REQUIRED unit; the same token
without the unit suffix is not recognized. -/
theorem windShear_canParse_requires_unit (h1 h2 h3 : Char) (dir : List Char) (s1 s2 : Char)
    (g : Option (Char × Char)) (u : String)
    (hh1 : isDigitCh h1 = true) (hh2 : isDigitCh h2 = true) (hh3 : isDigitCh h3 = true)
    (hdir : dir = ['V', 'R', 'B'] ∨ (dir.length = 3 ∧ dir.all isDigitCh = true))
    (hs1 : isDigitCh s1 = true) (hs2 : isDigitCh s2 = true)
    (hg : ∀ g1 g2, g = some (g1, g2) → isDigitCh g1 = true ∧ isDigitCh g2 = true)
    (hu : isWindUnit u) :
    WindShearCommand.canParse
        (String.mk ('W' :: 'S' :: h1 :: h2 :: h3 :: '/' ::
          (dir ++ s1 :: s2 :: (gustPart g ++ u.data)))) = true ∧
    WindShearCommand.canParse
        (String.mk ('W' :: 'S' :: h1 :: h2 :: h3 :: '/' ::
          (dir ++ s1 :: s2 :: gustPart g))) = false := by
  constructor
  · simp [WindShearCommand.canParse, data_mk,
      windShearMatch_shape h1 h2 h3 dir s1 s2 g u hh1 hh2 hh3 hdir hs1 hs2 hg hu]
  · simp [WindShearCommand.canParse, data_mk,
      windShearMatch_nounit h1 h2 h3 dir s1 s2 g hh1 hh2 hh3 hdir hs1 hs2 hg]

/-- C3 witness: `"WS020/24015G25KT"` is recognized; `"WS020/24015G25"`
(no unit) is not. -/
theorem windShear_canParse_requires_unit_witness :
    WindShearCommand.canParse "WS020/24015G25KT" = true ∧
    WindShearCommand.canParse "WS020/24015G25" = false :=
  windShear_canParse_requires_unit '0' '2' '0' ['2', '4', '0'] '1' '5'
    (some ('2', '5')) "KT" (by decide) (by decide) (by decide)
    (Or.inr ⟨rfl, by decide⟩) (by decide) (by decide)
    (fun g1 g2 hg => by cases hg; exact ⟨by decide, by decide⟩) (Or.inl rfl)

/-- C4: executing the base-wind recognizer on a valid token of the form
(3-digit direction or `VRB`) + 2-digit speed + optional `G`+2-digit gust +
optional unit stores a wind whose degrees are the numeric direction
(absent for `VRB`), whose speed is the 2-digit speed, whose gust is
present exactly when the token supplies one, and whose unit is the
supplied unit or knots when absent. -/
theorem windCommand_execute_spec (conv : Converters) (cont : Container)
    (dir : List Char) (s1 s2 : Char) (g : Option (Char × Char)) (u : Option String)
    (hdir : dir = ['V', 'R', 'B'] ∨ (dir.length = 3 ∧ dir.all isDigitCh = true))
    (hs1 : isDigitCh s1 = true) (hs2 : isDigitCh s2 = true)
    (hg : ∀ g1 g2, g = some (g1, g2) → isDigitCh g1 = true ∧ isDigitCh g2 = true)
    (hu : ∀ us, u = some us → isWindUnit us) :
    WindCommand.execute conv cont (String.mk (dir ++ s1 :: s2 :: (gustPart g ++ unitChars u))) =
      (.ok true,
        { cont with
            wind := some
              { speed := toNum [s1, s2]
                direction := conv.degreesToCardinal (String.mk dir)
                degrees := if dir = ['V', 'R', 'B'] then none else some (toNum dir)
                gust := g.map (fun q => toNum [q.1, q.2])
                unit := u.getD "KT" } }) := by
  have hm := windMatch_shape dir s1 s2 g u hdir hs1 hs2 hg hu
  unfold WindCommand.execute WindCommand.parseWind
  rw [data_mk, hm]
  unfold makeWind
  by_cases hd : dir = ['V', 'R', 'B']
  · subst hd
    rcases g with _ | ⟨q1, q2⟩ <;> simp
  · have hsd : ¬(String.mk dir = "VRB") := fun he => hd (congrArg String.data he)
    rcases g with _ | ⟨q1, q2⟩ <;> simp [hsd, hd]

/-- C4 witness: `"24015G25KT"` and `"VRB02KT"` on the empty accumulator. -/
theorem windCommand_execute_spec_witness :
    WindCommand.execute idConverters emptyContainer "24015G25KT" =
      (.ok true,
        { emptyContainer with
            wind := some { speed := 15, direction := "240", degrees := some 240,
                           gust := some 25, unit := "KT" } }) ∧
    WindCommand.execute idConverters emptyContainer "VRB02KT" =
      (.ok true,
        { emptyContainer with
            wind := some { speed := 2, direction := "VRB", degrees := none,
                           gust := none, unit := "KT" } }) :=
  ⟨windCommand_execute_spec idConverters emptyContainer ['2', '4', '0'] '1' '5'
      (some ('2', '5')) (some "KT") (Or.inr ⟨rfl, by decide⟩) (by decide) (by decide)
      (fun g1 g2 hg => by cases hg; exact ⟨by decide, by decide⟩)
      (fun us hus => by cases hus; exact Or.inl rfl),
   windCommand_execute_spec idConverters emptyContainer ['V', 'R', 'B'] '0' '2'
      none (some "KT") (Or.inl rfl) (by decide) (by decide)
      (fun g1 g2 hg => by cases hg)
      (fun us hus => by cases hus; exact Or.inl rfl)⟩

/-- C7 counterexample: the valid token `"24030G10KT"` stores a wind with
gust 10 strictly below speed 30, so `gust ≥ speed` does not hold for every
stored wind. -/
theorem wind_gust_lt_speed_cex :
    (WindCommand.execute idConverters emptyContainer "24030G10KT").2.wind =
      some { speed := 30, direction := "240", degrees := some 240,
             gust := some 10, unit := "KT" } ∧ ¬(30 ≤ 10) :=
  ⟨rfl, by decide⟩

/-- C7 (amended): the gust stored by a successful base-wind or wind-shear
execution is exactly the numeric value of the token's 2-digit gust group
and the speed is the numeric value of the 2-digit speed group; no
`gust ≥ speed` relation is imposed by the recognizers. -/
theorem wind_gust_is_encoded_value (conv : Converters) (cont : Container)
    (h1 h2 h3 : Char) (dir : List Char) (s1 s2 g1 g2 : Char) (uo : Option String) (u : String)
    (hh1 : isDigitCh h1 = true) (hh2 : isDigitCh h2 = true) (hh3 : isDigitCh h3 = true)
    (hdir : dir = ['V', 'R', 'B'] ∨ (dir.length = 3 ∧ dir.all isDigitCh = true))
    (hs1 : isDigitCh s1 = true) (hs2 : isDigitCh s2 = true)
    (hg1 : isDigitCh g1 = true) (hg2 : isDigitCh g2 = true)
    (huo : ∀ us, uo = some us → isWindUnit us) (hu : isWindUnit u) :
    (∀ w, ((WindCommand.execute conv cont
        (String.mk (dir ++ s1 :: s2 :: (gustPart (some (g1, g2)) ++ unitChars uo)))).2).wind =
          some w →
      w.gust = some (toNum [g1, g2]) ∧ w.speed = toNum [s1, s2]) ∧
    (∀ ws, ((WindShearCommand.execute conv cont
        (String.mk ('W' :: 'S' :: h1 :: h2 :: h3 :: '/' ::
          (dir ++ s1 :: s2 :: (gustPart (some (g1, g2)) ++ u.data))))).2).windShear =
          some ws →
      ws.gust = some (toNum [g1, g2]) ∧ ws.speed = toNum [s1, s2]) := by
  have hgp : ∀ a b : Char, some (g1, g2) = some (a, b) →
      isDigitCh a = true ∧ isDigitCh b = true := by
    intro a b hab
    cases hab
    exact ⟨hg1, hg2⟩
  constructor
  · intro w hw
    have hm := windMatch_shape dir s1 s2 (some (g1, g2)) uo hdir hs1 hs2 hgp huo
    unfold WindCommand.execute WindCommand.parseWind at hw
    rw [data_mk, hm] at hw
    simp only [Option.map_some] at hw
    have hww := Option.some.inj hw
    rw [← hww]
    exact ⟨rfl, rfl⟩
  · intro ws hws
    have hms := windShearMatch_shape h1 h2 h3 dir s1 s2 (some (g1, g2)) u
      hh1 hh2 hh3 hdir hs1 hs2 hgp hu
    unfold WindShearCommand.execute WindShearCommand.parseWindShear at hws
    rw [data_mk, hms] at hws
    simp only [Option.map_some] at hws
    have hww := Option.some.inj hws
    rw [← hww]
    exact ⟨rfl, rfl⟩

/-- C7 witness: the amended statement instantiated at `"24030G10KT"` and
`"WS020/24030G10KT"`. -/
theorem wind_gust_is_encoded_value_witness :
    (({ speed := 30, direction := "240", degrees := some 240,
        gust := some 10, unit := "KT" } : Wind).gust = some 10 ∧
      ({ speed := 30, direction := "240", degrees := some 240,
         gust := some 10, unit := "KT" } : Wind).speed = 30) ∧
    (({ speed := 30, direction := "240", degrees := some 240,
        gust := some 10, unit := "KT", height := 2000 } : WindShear).gust = some 10 ∧
      ({ speed := 30, direction := "240", degrees := some 240,
         gust := some 10, unit := "KT", height := 2000 } : WindShear).speed = 30) :=
  ⟨(wind_gust_is_encoded_value idConverters emptyContainer '0' '2' '0' ['2', '4', '0']
      '3' '0' '1' '0' (some "KT") "KT" (by decide) (by decide) (by decide)
      (Or.inr ⟨rfl, by decide⟩) (by decide) (by decide) (by decide) (by decide)
      (fun us hus => by cases hus; exact Or.inl rfl) (Or.inl rfl)).1
      { speed := 30, direction := "240", degrees := some 240,
        gust := some 10, unit := "KT" } rfl,
   (wind_gust_is_encoded_value idConverters emptyContainer '0' '2' '0' ['2', '4', '0']
      '3' '0' '1' '0' (some "KT") "KT" (by decide) (by decide) (by decide)
      (Or.inr ⟨rfl, by decide⟩) (by decide) (by decide) (by decide) (by decide)
      (fun us hus => by cases hus; exact Or.inl rfl) (Or.inl rfl)).2
      { speed := 30, direction := "240", degrees := some 240,
        gust := some 10, unit := "KT", height := 2000 } rfl⟩

/-- `windMatch` succeeds exactly when the first five characters are a
direction group (`VRB` or three digits) followed by two speed digits:
everything after the speed is optional and the regex end is unanchored. -/
theorem windMatch_isSome_chars (l : List Char) :
    (windMatch l).isSome = true ↔
      ((l.take 3 = ['V', 'R', 'B'] ∨
          ((l.take 3).length = 3 ∧ (l.take 3).all isDigitCh = true)) ∧
        ((l.drop 3).take 2).length = 2 ∧ ((l.drop 3).take 2).all isDigitCh = true) := by
  unfold windMatch windDirStep
  by_cases hv : l.take 3 = ['V', 'R', 'B']
  · rw [if_pos hv]
    by_cases hsp : ((l.drop 3).take 2).length = 2 ∧ ((l.drop 3).take 2).all isDigitCh = true
    · exact iff_of_true (by simp [takeClass_eq_some_of _ _ _ hsp.1 hsp.2]) (by tauto)
    · exact iff_of_false (by simp [takeClass_eq_none hsp]) (by tauto)
  · rw [if_neg hv]
    by_cases hd : (l.take 3).length = 3 ∧ (l.take 3).all isDigitCh = true
    · rw [takeClass_eq_some_of _ _ _ hd.1 hd.2]
      by_cases hsp : ((l.drop 3).take 2).length = 2 ∧ ((l.drop 3).take 2).all isDigitCh = true
      · exact iff_of_true (by simp [takeClass_eq_some_of _ _ _ hsp.1 hsp.2]) (by tauto)
      · exact iff_of_false (by simp [takeClass_eq_none hsp]) (by tauto)
    · rw [takeClass_eq_none hd]
      exact iff_of_false (by simp) (by tauto)

/-- C8 counterexample: `"24015KTXYZ"` has extra trailing characters after
a valid wind group, yet `WindCommand.canParse` returns true, because the
regex is not anchored at the end of the token. -/
theorem windCommand_canParse_trailing_accepted :
    WindCommand.canParse "24015KTXYZ" = true := rfl

/-- C8 (amended): the base-wind `canParse` tests only the FRONT of the
token: it returns true exactly when the token begins with (3-digit
direction or `VRB`) followed by a 2-digit speed; in particular trailing
extra characters after a valid wind group never make it false. -/
theorem windCommand_canParse_front_shape_test (s : String) :
    WindCommand.canParse s = true ↔
      ((s.data.take 3 = ['V', 'R', 'B'] ∨
          ((s.data.take 3).length = 3 ∧ (s.data.take 3).all isDigitCh = true)) ∧
        ((s.data.drop 3).take 2).length = 2 ∧
        ((s.data.drop 3).take 2).all isDigitCh = true) := by
  unfold WindCommand.canParse
  exact windMatch_isSome_chars s.data

/-- C8 witness: the amended characterization instantiated at
`"24015KTXYZ"` (accepted, direction digits at the front) and at `"XYZ"`
(rejected). -/
theorem windCommand_canParse_front_shape_test_witness :
    WindCommand.canParse "24015KTXYZ" = true ∧ WindCommand.canParse "XYZ" = false :=
  ⟨(windCommand_canParse_front_shape_test "24015KTXYZ").2 (by decide),
   by
    have h := (windCommand_canParse_front_shape_test "XYZ").1
    cases hc : WindCommand.canParse "XYZ"
    · rfl
    · exact absurd (h hc) (by decide)⟩
